import Mathlib

/-!
Shallow embedding of the zennquotes-server worker (src/index.ts and
src/ogp/generator.ts).  Strings from the runtime are modelled as Lean
`String` / `List Char`; fallible external calls (HTTP fetch, JSON.parse,
the rendering library, the blob store, the record store) are modelled as
explicit outcome parameters; thrown exceptions are `Except.error`.
-/

namespace ZennQuotes

/-- Runtime JSON values, as produced by `JSON.parse`.  Numbers are modelled
as integers; truthiness only ever inspects whether a number is zero. -/
inductive Json where
  | null : Json
  | bool : Bool → Json
  | num : Int → Json
  | str : String → Json
  | arr : List Json → Json
  | obj : List (String × Json) → Json

/-- JS property access `v.k` (guarded by optional chaining): objects give the
last binding of the key (later JSON keys overwrite earlier ones), every
non-object value gives `undefined` (`none`). -/
def Json.getField : Json → String → Option Json
  | Json.obj fs, k => (fs.reverse.find? (fun p => p.1 == k)).map (fun p => p.2)
  | _, _ => none

/-- Optional chaining `v?.k` lifted to `Option`. -/
def optChain (v : Option Json) (k : String) : Option Json :=
  v.bind (fun j => j.getField k)

/-- JS truthiness of a possibly-`undefined` value: `undefined`, `null`,
`false`, `0` and `""` are falsy. -/
def truthy : Option Json → Bool
  | none => false
  | some Json.null => false
  | some (Json.bool b) => b
  | some (Json.num n) => n != 0
  | some (Json.str s) => s != ""
  | some (Json.arr _) => true
  | some (Json.obj _) => true

/-- The string payload of a JSON value; `none` where the source code's
`str.replace` would throw (the value is not a string). -/
def Json.asString : Json → Option String
  | Json.str s => some s
  | _ => none

/-- An HTTP response as seen by `fetch`: the `ok` flag and the body text. -/
structure HttpResponse where
  ok : Bool
  body : String

/-- In JS regexes without the `s` flag, `.` matches anything but a line
terminator. -/
def isDotChar (c : Char) : Bool :=
  !(c == '\n' || c == '\r' || c == ' ' || c == ' ')

/-- Backtracking matcher for a lazy `.+?` followed by the literal `stop`:
after consuming at least one non-line-terminator character it tries `stop`
at each position (shortest first) and runs the continuation `k` on the
consumed characters and the remainder; on failure of `k` it consumes one
more character, exactly as the regex engine backtracks. -/
def matchLazy (stop : List Char) (k : List Char → List Char → Option (List Char)) :
    List Char → List Char → Option (List Char)
  | acc, [] =>
    if !acc.isEmpty && stop.isPrefixOf ([] : List Char) then
      k acc.reverse (([] : List Char).drop stop.length)
    else none
  | acc, c :: rest =>
    let tryHere : Option (List Char) :=
      if !acc.isEmpty && stop.isPrefixOf (c :: rest) then
        k acc.reverse ((c :: rest).drop stop.length)
      else none
    match tryHere with
    | some r => some r
    | none => if isDotChar c then matchLazy stop k (c :: acc) rest else none

/-- The literal head of the `__NEXT_DATA__` regex, up to the opening quote
of the `nonce` attribute. -/
def nextDataHead : List Char :=
  "<script id=\"__NEXT_DATA__\" type=\"application/json\" nonce=\"".toList

/-- `html.match(/<script id="__NEXT_DATA__" type="application\/json"
nonce=".+?">(.+?)<\/script>/)`: leftmost match, lazy quantifiers, first
capture group.  Tries every start position left to right; at a position the
literal head must match, then `.+?">` (the nonce), then the captured
`.+?` up to `</script>`. -/
def findNextData : List Char → Option (List Char)
  | [] => none
  | c :: rest =>
    let here : Option (List Char) :=
      if nextDataHead.isPrefixOf (c :: rest) then
        matchLazy "\">".toList
          (fun _nonce after =>
            matchLazy "</script>".toList (fun cap _ => some cap) [] after)
          [] ((c :: rest).drop nextDataHead.length)
      else none
    match here with
    | some r => some r
    | none => findNextData rest

/-- `str.replace(/x/g, repl)` for a single-character pattern: every
occurrence of `needle` is replaced by `repl`. -/
def replaceAllChar (needle : Char) (repl : List Char) (s : List Char) : List Char :=
  s.flatMap (fun c => if c == needle then repl else [c])

/-- The `sanitize` closure of `fetchMetadata`
(`str.replace(/</g, '<').replace(/>/g, '>')`), transcribed as written:
`<` is replaced by `<` and `>` by `>`. -/
def sanitize (s : List Char) : List Char :=
  replaceAllChar '>' ['>'] (replaceAllChar '<' ['<'] s)

/-- String-level wrapper of `sanitize`. -/
def sanitizeStr (s : String) : String :=
  String.mk (sanitize s.toList)

/-- Result of `fetchMetadata`. -/
structure Metadata where
  title : String
  author : String
  authorAvatarUrl : Option Json

/-- The catch-branch result of `fetchMetadata`. -/
def metadataSentinel : Metadata :=
  { title := "タイトル取得エラー", author := "著者取得エラー", authorAvatarUrl := none }

/-- `fetchMetadata(url)` (generator.ts).  `jsonParse` models the runtime's
`JSON.parse` (`none` = throws); `fetchOutcome` models `await fetch(url)`
(`none` = the fetch rejected).  Every `throw` inside the `try` lands in the
`catch`, which returns `metadataSentinel`. -/
def fetchMetadata (jsonParse : String → Option Json)
    (fetchOutcome : Option HttpResponse) (_url : String) : Metadata :=
  match fetchOutcome with
  | none => metadataSentinel
  | some response =>
    if !response.ok then metadataSentinel
    else
      match findNextData response.body.toList with
      | none => metadataSentinel
      | some cap =>
        match jsonParse (String.mk cap) with
        | none => metadataSentinel
        | some nextData =>
          let articleTitle :=
            optChain (optChain (optChain (Json.getField nextData "props") "pageProps") "article") "title"
          let authorName :=
            optChain (optChain (optChain (Json.getField nextData "props") "pageProps") "user") "username"
          let authorAvatar :=
            optChain (optChain (optChain (Json.getField nextData "props") "pageProps") "user") "avatarUrl"
          if !truthy articleTitle || !truthy authorName then metadataSentinel
          else
            match articleTitle.bind Json.asString, authorName.bind Json.asString with
            | some t, some a =>
              { title := sanitizeStr t
                author := sanitizeStr a
                authorAvatarUrl := if truthy authorAvatar then authorAvatar else none }
            | _, _ => metadataSentinel

/-- `calculateFontSize(textLength)` (generator.ts): max size up to 50
characters, min size from 150, linear interpolation in between, rounded to
the nearest integer. -/
def calculateFontSize (textLength : ℕ) : ℤ :=
  let minLengthThreshold : ℕ := 50
  let maxLengthThreshold : ℕ := 150
  let maxFontSize : ℤ := 64
  let minFontSize : ℤ := 32
  if textLength ≤ minLengthThreshold then maxFontSize
  else if maxLengthThreshold ≤ textLength then minFontSize
  else
    let ratio : ℚ :=
      ((textLength : ℚ) - (minLengthThreshold : ℚ)) /
        ((maxLengthThreshold : ℚ) - (minLengthThreshold : ℚ))
    round ((maxFontSize : ℚ) - ratio * ((maxFontSize : ℚ) - (minFontSize : ℚ)))

/-- The character class `encodeURIComponent` leaves unescaped:
`A–Z a–z 0–9 - _ . ! ~ * ' ( )`. -/
def isUriUnescaped (c : Char) : Bool :=
  c.isAlphanum || ['-', '_', '.', '!', '~', '*', '\'', '(', ')'].contains c

/-- UTF-8 encoding of one scalar value, as a list of byte values. -/
def utf8Bytes (c : Char) : List ℕ :=
  let n := c.toNat
  if n < 128 then [n]
  else if n < 2048 then [192 + n / 64, 128 + n % 64]
  else if n < 65536 then [224 + n / 4096, 128 + (n / 64) % 64, 128 + n % 64]
  else [240 + n / 262144, 128 + (n / 4096) % 64, 128 + (n / 64) % 64, 128 + n % 64]

/-- Upper-case hexadecimal digit for a value below 16. -/
def hexDigitUpper (n : ℕ) : Char :=
  if n < 10 then Char.ofNat ('0'.toNat + n) else Char.ofNat ('A'.toNat + (n - 10))

/-- `%XY` percent-encoding of one byte. -/
def percentEncodeByte (b : ℕ) : List Char :=
  ['%', hexDigitUpper (b / 16), hexDigitUpper (b % 16)]

/-- JS `encodeURIComponent`: unreserved characters pass through, every other
character is UTF-8 encoded and each byte percent-encoded. -/
def encodeURIComponent (s : String) : String :=
  String.mk (s.toList.flatMap (fun c =>
    if isUriUnescaped c then [c] else (utf8Bytes c).flatMap percentEncodeByte))

/-- The persisted entity (interface `QuoteLink` in index.ts / table
`quote_links`). -/
structure QuoteLink where
  id : String
  quote : String
  title : String
  author : String
  original_url : String
  ogp_image_url : String
  author_avatar_url : Option Json
  created_at : ℕ

/-- A response body: JSON objects with string fields, HTML text, plain
text, the zod-validator's serialized 400 error, or an empty body. -/
inductive RespBody where
  | json : List (String × String) → RespBody
  | html : List Char → RespBody
  | text : String → RespBody
  | zodError : RespBody
  | empty : RespBody

/-- An HTTP response emitted by a handler. -/
structure Response where
  status : ℕ
  body : RespBody

/-- The generic pipeline-failure response:
`c.json({ error: 'Failed to generate OGP link' }, 500)`. -/
def ogpErrorResponse : Response :=
  { status := 500, body := RespBody.json [("error", "Failed to generate OGP link")] }

/-- External operations the POST handler issues, in issue order.  A blob
put carries the key, the bytes being stored and the content type. -/
inductive Event where
  | fetchMeta : Event
  | render : String → String → String → Option Json → Event
  | blobPut : String → List ℕ → String → Event
  | recordInsert : QuoteLink → Event

/-- The environment of one `POST /api/ogp` execution: the generated id, the
world seen by `fetchMetadata`, and the outcome of each fallible external
call (`Except.error` = the awaited call threw). -/
structure PostEnv where
  genId : String
  jsonParse : String → Option Json
  fetchOutcome : Option HttpResponse
  renderResult : Except Unit (List ℕ)
  putResult : Except Unit Unit
  insertResult : Except Unit Unit
  r2PublicUrl : Option String
  now : ℕ

/-- `c.env.R2_BUCKET_PUBLIC_URL || 'zennq-img.folks-chat.com'` (JS `||`:
an unset variable and the empty string both fall back). -/
def r2Host (v : Option String) : String :=
  match v with
  | none => "zennq-img.folks-chat.com"
  | some u => if u == "" then "zennq-img.folks-chat.com" else u

/-- The body of the `POST /api/ogp` handler after validation succeeded
(index.ts lines 88–147).  Returns the response together with the trace of
issued external operations; a failing step lands in the `catch`, which
answers `ogpErrorResponse`. -/
def postOgpValidated (env : PostEnv) (quote originalUrlInput : String) :
    Response × List Event :=
  let id := env.genId
  let meta := fetchMetadata env.jsonParse env.fetchOutcome originalUrlInput
  let evRender : List Event :=
    [Event.fetchMeta, Event.render quote meta.title meta.author meta.authorAvatarUrl]
  match env.renderResult with
  | Except.error _ => (ogpErrorResponse, evRender)
  | Except.ok pngBuffer =>
    let r2Key := "ogp/" ++ id ++ ".png"
    let evPut := evRender ++ [Event.blobPut r2Key pngBuffer "image/png"]
    match env.putResult with
    | Except.error _ => (ogpErrorResponse, evPut)
    | Except.ok _ =>
      let ogpImageUrl := "https://" ++ r2Host env.r2PublicUrl ++ "/" ++ r2Key
      let originalUrlWithFragment :=
        originalUrlInput ++ "#:~:text=" ++ encodeURIComponent quote
      let dataToSave : QuoteLink :=
        { id := id
          quote := quote
          title := meta.title
          author := meta.author
          original_url := originalUrlWithFragment
          ogp_image_url := ogpImageUrl
          author_avatar_url := meta.authorAvatarUrl
          created_at := env.now }
      let evInsert := evPut ++ [Event.recordInsert dataToSave]
      match env.insertResult with
      | Except.error _ => (ogpErrorResponse, evInsert)
      | Except.ok _ =>
        ({ status := 200, body := RespBody.json [("id", id), ("ogpImageUrl", ogpImageUrl)] },
          evInsert)

/-- The request body of `POST /api/ogp`. -/
structure OgpRequest where
  quote : String
  url : String

/-- JS `s.startsWith(p)`: `p` is a prefix of `s`. -/
def strStartsWith (s p : String) : Bool :=
  p.toList.isPrefixOf s.toList

/-- The zod schema `OgpRequestSchema`: `quote` is a string of at most 200
characters, `url` is a string accepted by `z.string().url()` (the runtime
URL parser, modelled by the parameter `isURL`) that starts with
`https://zenn.dev/`. -/
def validateOgp (isURL : String → Bool) (b : OgpRequest) : Bool :=
  decide (b.quote.length ≤ 200) &&
    (isURL b.url && strStartsWith b.url "https://zenn.dev/")

/-- The full `POST /api/ogp` route: the `zValidator('json', …)` middleware
answers 400 with its serialized error before the handler runs; otherwise
the validated handler runs. -/
def postOgp (env : PostEnv) (isURL : String → Bool) (b : OgpRequest) :
    Response × List Event :=
  if validateOgp isURL b then postOgpValidated env b.quote b.url
  else ({ status := 400, body := RespBody.zodError }, [])

/-- A record was persisted: the insert was issued and the record-store call
succeeded. -/
def recordPersisted (env : PostEnv) (tr : List Event) : Prop :=
  (∃ rec, Event.recordInsert rec ∈ tr) ∧ env.insertResult = Except.ok ()

/-- Literal pieces of the `GET /:id` HTML template (index.ts lines
174–196), split around the interpolated fields. -/
def hd0 : List Char :=
  "\n<!DOCTYPE html>\n<html>\n<head>\n  <meta charset=\"utf-8\">\n  <meta name=\"viewport\" content=\"width=device-width, initial-scale=1\">\n  ".toList

/-- `<title>` opener of the template. -/
def titleOpen : List Char := "<title>".toList

/-- `</title>` closer of the template. -/
def titleClose : List Char := "</title>".toList

/-- The newline-and-indent separator between template lines. -/
def nlIndent : List Char := "\n  ".toList

/-- Opener of the `og:title` meta tag, up to the interpolated title. -/
def ogTitleOpen : List Char := "<meta property=\"og:title\" content=\"".toList

/-- Closer `" />` of the self-closing meta tags. -/
def attrClose : List Char := "\" />".toList

/-- Opener of the `og:description` meta tag. -/
def ogDescOpen : List Char := "<meta property=\"og:description\" content=\"".toList

/-- Opener of the `og:image` meta tag. -/
def ogImageOpen : List Char := "<meta property=\"og:image\" content=\"".toList

/-- Opener of the `og:url` meta tag. -/
def ogUrlOpen : List Char := "<meta property=\"og:url\" content=\"".toList

/-- The whole `og:type` meta tag (no interpolation). -/
def ogTypeTag : List Char := "<meta property=\"og:type\" content=\"article\" />".toList

/-- The whole `twitter:card` meta tag (no interpolation). -/
def twCardTag : List Char := "<meta name=\"twitter:card\" content=\"summary_large_image\">".toList

/-- Opener of the `twitter:title` meta tag. -/
def twTitleOpen : List Char := "<meta name=\"twitter:title\" content=\"".toList

/-- Closer `">` of the non-self-closing meta tags. -/
def attrCloseQ : List Char := "\">".toList

/-- Opener of the `twitter:description` meta tag. -/
def twDescOpen : List Char := "<meta name=\"twitter:description\" content=\"".toList

/-- Opener of the `twitter:image` meta tag. -/
def twImageOpen : List Char := "<meta name=\"twitter:image\" content=\"".toList

/-- Opener of the zero-delay meta-refresh tag, up to the interpolated URL:
`<meta http-equiv="refresh" content="0; url=`. -/
def refreshOpen : List Char := "<meta http-equiv=\"refresh\" content=\"0; url=".toList

/-- Template text between `</head>` and the `<a href="` of the body. -/
def bodyOpen : List Char := "\n</head>\n<body>\n  <p>Redirecting to <a href=\"".toList

/-- Template text `">` between the href value and the link text. -/
def bodyMid : List Char := "\">".toList

/-- Trailing template text after the link text. -/
def bodyClose : List Char := "</a>...</p>\n</body>\n</html>\n  ".toList

/-- The HTML document of the `GET /:id` handler (index.ts lines 174–196),
with every interpolated field spliced in verbatim. -/
def renderHtml (data : QuoteLink) : List Char :=
  hd0 ++ titleOpen ++ data.title.toList ++ titleClose ++ nlIndent ++
  ogTitleOpen ++ data.title.toList ++ attrClose ++ nlIndent ++
  ogDescOpen ++ data.quote.toList ++ attrClose ++ nlIndent ++
  ogImageOpen ++ data.ogp_image_url.toList ++ attrClose ++ nlIndent ++
  ogUrlOpen ++ data.original_url.toList ++ attrClose ++ nlIndent ++
  ogTypeTag ++ nlIndent ++
  twCardTag ++ nlIndent ++
  twTitleOpen ++ data.title.toList ++ attrCloseQ ++ nlIndent ++
  twDescOpen ++ data.quote.toList ++ attrCloseQ ++ nlIndent ++
  twImageOpen ++ data.ogp_image_url.toList ++ attrCloseQ ++ nlIndent ++
  refreshOpen ++ data.original_url.toList ++ attrClose ++
  bodyOpen ++ data.original_url.toList ++ bodyMid ++
  data.original_url.toList ++ bodyClose

/-- Template text before the `<title>` tag. -/
def preTitleTag : List Char := hd0

/-- Template text before the `og:title` tag. -/
def preOgTitleTag (d : QuoteLink) : List Char :=
  hd0 ++ titleOpen ++ d.title.toList ++ titleClose ++ nlIndent

/-- Template text before the `og:description` tag. -/
def preOgDescTag (d : QuoteLink) : List Char :=
  preOgTitleTag d ++ ogTitleOpen ++ d.title.toList ++ attrClose ++ nlIndent

/-- Template text before the `og:image` tag. -/
def preOgImageTag (d : QuoteLink) : List Char :=
  preOgDescTag d ++ ogDescOpen ++ d.quote.toList ++ attrClose ++ nlIndent

/-- Template text before the `og:url` tag. -/
def preOgUrlTag (d : QuoteLink) : List Char :=
  preOgImageTag d ++ ogImageOpen ++ d.ogp_image_url.toList ++ attrClose ++ nlIndent

/-- Template text before the `og:type` tag. -/
def preOgTypeTag (d : QuoteLink) : List Char :=
  preOgUrlTag d ++ ogUrlOpen ++ d.original_url.toList ++ attrClose ++ nlIndent

/-- Template text before the `twitter:card` tag. -/
def preTwCardTag (d : QuoteLink) : List Char :=
  preOgTypeTag d ++ ogTypeTag ++ nlIndent

/-- Template text before the `twitter:title` tag. -/
def preTwTitleTag (d : QuoteLink) : List Char :=
  preTwCardTag d ++ twCardTag ++ nlIndent

/-- Template text before the `twitter:description` tag. -/
def preTwDescTag (d : QuoteLink) : List Char :=
  preTwTitleTag d ++ twTitleOpen ++ d.title.toList ++ attrCloseQ ++ nlIndent

/-- Template text before the `twitter:image` tag. -/
def preTwImageTag (d : QuoteLink) : List Char :=
  preTwDescTag d ++ twDescOpen ++ d.quote.toList ++ attrCloseQ ++ nlIndent

/-- Template text before the meta-refresh tag. -/
def preRefreshTag (d : QuoteLink) : List Char :=
  preTwImageTag d ++ twImageOpen ++ d.ogp_image_url.toList ++ attrCloseQ ++ nlIndent

/-- Template text after the meta-refresh tag. -/
def sufRefreshTag (d : QuoteLink) : List Char :=
  bodyOpen ++ d.original_url.toList ++ bodyMid ++ d.original_url.toList ++ bodyClose

/-- Template text after the `twitter:image` tag. -/
def sufTwImageTag (d : QuoteLink) : List Char :=
  nlIndent ++ refreshOpen ++ d.original_url.toList ++ attrClose ++ sufRefreshTag d

/-- Template text after the `twitter:description` tag. -/
def sufTwDescTag (d : QuoteLink) : List Char :=
  nlIndent ++ twImageOpen ++ d.ogp_image_url.toList ++ attrCloseQ ++ sufTwImageTag d

/-- Template text after the `twitter:title` tag. -/
def sufTwTitleTag (d : QuoteLink) : List Char :=
  nlIndent ++ twDescOpen ++ d.quote.toList ++ attrCloseQ ++ sufTwDescTag d

/-- Template text after the `twitter:card` tag. -/
def sufTwCardTag (d : QuoteLink) : List Char :=
  nlIndent ++ twTitleOpen ++ d.title.toList ++ attrCloseQ ++ sufTwTitleTag d

/-- Template text after the `og:type` tag. -/
def sufOgTypeTag (d : QuoteLink) : List Char :=
  nlIndent ++ twCardTag ++ sufTwCardTag d

/-- Template text after the `og:url` tag. -/
def sufOgUrlTag (d : QuoteLink) : List Char :=
  nlIndent ++ ogTypeTag ++ sufOgTypeTag d

/-- Template text after the `og:image` tag. -/
def sufOgImageTag (d : QuoteLink) : List Char :=
  nlIndent ++ ogUrlOpen ++ d.original_url.toList ++ attrClose ++ sufOgUrlTag d

/-- Template text after the `og:description` tag. -/
def sufOgDescTag (d : QuoteLink) : List Char :=
  nlIndent ++ ogImageOpen ++ d.ogp_image_url.toList ++ attrClose ++ sufOgImageTag d

/-- Template text after the `og:title` tag. -/
def sufOgTitleTag (d : QuoteLink) : List Char :=
  nlIndent ++ ogDescOpen ++ d.quote.toList ++ attrClose ++ sufOgDescTag d

/-- Template text after the `</title>` tag. -/
def sufTitleTag (d : QuoteLink) : List Char :=
  nlIndent ++ ogTitleOpen ++ d.title.toList ++ attrClose ++ sufOgTitleTag d

/-- The `GET /:id` handler (index.ts lines 151–204).  `db` models
`D1_DB.prepare(...).bind(id).first()` (`Except.error` = the query threw).
The boolean records whether the record store was queried. -/
def getId (db : String → Except Unit (Option QuoteLink)) (id : String) :
    Response × Bool :=
  if id == "undefined" then
    ({ status := 404, body := RespBody.text "Not Found" }, false)
  else
    match db id with
    | Except.error _ => ({ status := 500, body := RespBody.text "Internal Server Error" }, true)
    | Except.ok none => ({ status := 404, body := RespBody.text "Not Found" }, true)
    | Except.ok (some data) => ({ status := 200, body := RespBody.html (renderHtml data) }, true)

/-- Whether the path matches the route pattern `/:id`: a leading slash
followed by one non-empty segment.  Returns the captured segment. -/
def matchParamSegment (path : String) : Option String :=
  match path.toList with
  | '/' :: rest =>
    if !rest.isEmpty && !rest.contains '/' then some (String.mk rest) else none
  | _ => none

/-- The app's GET routing (index.ts).  Hono dispatches to the first route
registered that matches; the registration order is `/:id` (line 151),
`/favicon.ico` (line 207), `/` (line 209), so `/favicon.ico` can only be
reached if `/:id` did not match.  The boolean reports whether the record
store was queried. -/
def routeGet (db : String → Except Unit (Option QuoteLink)) (path : String) :
    Response × Bool :=
  match matchParamSegment path with
  | some seg => getId db seg
  | none =>
    if path == "/favicon.ico" then ({ status := 204, body := RespBody.empty }, false)
    else if path == "/" then
      ({ status := 200, body := RespBody.text "Hello Zenn Quotes!" }, false)
    else ({ status := 404, body := RespBody.text "404 Not Found" }, false)

/-- A concrete POST environment in which every external call succeeds (the
article fetch rejects, so the metadata sentinel is used). -/
def allOkEnv : PostEnv :=
  { genId := "abc1234"
    jsonParse := fun _ => none
    fetchOutcome := none
    renderResult := Except.ok []
    putResult := Except.ok ()
    insertResult := Except.ok ()
    r2PublicUrl := none
    now := 0 }

/-- `allOkEnv` with a failing blob-store put. -/
def putFailEnv : PostEnv :=
  { allOkEnv with putResult := Except.error () }

/-- The record the pipeline persists from `allOkEnv` with quote
`Hello world` and url `https://zenn.dev/a`. -/
def helloRecord : QuoteLink :=
  { id := "abc1234"
    quote := "Hello world"
    title := "タイトル取得エラー"
    author := "著者取得エラー"
    original_url := "https://zenn.dev/a#:~:text=Hello%20world"
    ogp_image_url := "https://zennq-img.folks-chat.com/ogp/abc1234.png"
    author_avatar_url := none
    created_at := 0 }

/-- The record the pipeline persists from `allOkEnv` with a quote holding
a double quote and raw angle brackets. -/
def rawRecord : QuoteLink :=
  { id := "abc1234"
    quote := "a\"<>b"
    title := "タイトル取得エラー"
    author := "著者取得エラー"
    original_url := "https://zenn.dev/a#:~:text=a%22%3C%3Eb"
    ogp_image_url := "https://zennq-img.folks-chat.com/ogp/abc1234.png"
    author_avatar_url := none
    created_at := 0 }

/-- A concrete stored record for exercising the `GET /:id` handler. -/
def sampleRecord : QuoteLink :=
  { id := "someid1"
    quote := "a quote"
    title := "T"
    author := "A"
    original_url := "https://zenn.dev/x#:~:text=a%20quote"
    ogp_image_url := "https://zennq-img.folks-chat.com/ogp/someid1.png"
    author_avatar_url := none
    created_at := 5 }

/-- A record store holding exactly `sampleRecord` under its id. -/
def sampleDb : String → Except Unit (Option QuoteLink) :=
  fun s => if s == "someid1" then Except.ok (some sampleRecord) else Except.ok none

/-! Helper lemmas. -/

/-- Replacing a character by itself is the identity. -/
lemma replaceAllChar_self (c : Char) (s : List Char) : replaceAllChar c [c] s = s := by
  induction s with
  | nil => rfl
  | cons d t ih =>
    have hstep : replaceAllChar c [c] (d :: t) =
        (if (d == c) = true then [c] else [d]) ++ replaceAllChar c [c] t := rfl
    rw [hstep, ih]
    by_cases h : d = c
    · subst h; simp
    · simp [h]

/-- The `sanitize` of the source replaces `<` by `<` and `>` by `>`, so it
is the identity. -/
lemma sanitize_eq_self (s : List Char) : sanitize s = s := by
  unfold sanitize
  rw [replaceAllChar_self, replaceAllChar_self]

/-- The validated POST handler always issues at least one external
operation. -/
lemma postOgpValidated_trace_ne_nil (env : PostEnv) (q u : String) :
    (postOgpValidated env q u).2 ≠ [] := by
  obtain ⟨gid, jp, fo, rr, pr, ir, pu, now⟩ := env
  cases rr <;> cases pr <;> cases ir <;> simp [postOgpValidated]

/-- Any record whose insert the validated handler issues is exactly the
`dataToSave` of the source, and the blob put had succeeded. -/
lemma recordInsert_mem_trace (env : PostEnv) (q u : String) (rec : QuoteLink)
    (hmem : Event.recordInsert rec ∈ (postOgpValidated env q u).2) :
    rec = { id := env.genId
            quote := q
            title := (fetchMetadata env.jsonParse env.fetchOutcome u).title
            author := (fetchMetadata env.jsonParse env.fetchOutcome u).author
            original_url := u ++ "#:~:text=" ++ encodeURIComponent q
            ogp_image_url :=
              "https://" ++ r2Host env.r2PublicUrl ++ "/" ++ ("ogp/" ++ env.genId ++ ".png")
            author_avatar_url := (fetchMetadata env.jsonParse env.fetchOutcome u).authorAvatarUrl
            created_at := env.now } ∧
    env.putResult = Except.ok () := by
  obtain ⟨gid, jp, fo, rr, pr, ir, pu, now⟩ := env
  cases rr with
  | error e => simp [postOgpValidated] at hmem
  | ok png =>
    cases pr with
    | error e => simp [postOgpValidated] at hmem
    | ok u1 =>
      cases u1
      cases ir with
      | error e =>
        simp [postOgpValidated] at hmem
        exact ⟨by rw [hmem], rfl⟩
      | ok u2 =>
        simp [postOgpValidated] at hmem
        exact ⟨by rw [hmem], rfl⟩

/-- Decomposition of the emitted HTML around the `<title>` tag. -/
lemma renderHtml_at_title (d : QuoteLink) :
    renderHtml d = preTitleTag ++ ((titleOpen ++ d.title.toList ++ titleClose) ++ sufTitleTag d) := by
  simp only [renderHtml, preTitleTag, sufTitleTag, sufOgTitleTag, sufOgDescTag, sufOgImageTag,
    sufOgUrlTag, sufOgTypeTag, sufTwCardTag, sufTwTitleTag, sufTwDescTag, sufTwImageTag,
    sufRefreshTag, List.append_assoc]

/-- Decomposition of the emitted HTML around the `og:title` tag. -/
lemma renderHtml_at_ogTitle (d : QuoteLink) :
    renderHtml d = preOgTitleTag d ++ ((ogTitleOpen ++ d.title.toList ++ attrClose) ++ sufOgTitleTag d) := by
  simp only [renderHtml, preOgTitleTag, sufOgTitleTag, sufOgDescTag, sufOgImageTag,
    sufOgUrlTag, sufOgTypeTag, sufTwCardTag, sufTwTitleTag, sufTwDescTag, sufTwImageTag,
    sufRefreshTag, List.append_assoc]

/-- Decomposition of the emitted HTML around the `og:description` tag. -/
lemma renderHtml_at_ogDesc (d : QuoteLink) :
    renderHtml d = preOgDescTag d ++ ((ogDescOpen ++ d.quote.toList ++ attrClose) ++ sufOgDescTag d) := by
  simp only [renderHtml, preOgDescTag, preOgTitleTag, sufOgDescTag, sufOgImageTag,
    sufOgUrlTag, sufOgTypeTag, sufTwCardTag, sufTwTitleTag, sufTwDescTag, sufTwImageTag,
    sufRefreshTag, List.append_assoc]

/-- Decomposition of the emitted HTML around the `og:image` tag. -/
lemma renderHtml_at_ogImage (d : QuoteLink) :
    renderHtml d = preOgImageTag d ++ ((ogImageOpen ++ d.ogp_image_url.toList ++ attrClose) ++ sufOgImageTag d) := by
  simp only [renderHtml, preOgImageTag, preOgDescTag, preOgTitleTag, sufOgImageTag,
    sufOgUrlTag, sufOgTypeTag, sufTwCardTag, sufTwTitleTag, sufTwDescTag, sufTwImageTag,
    sufRefreshTag, List.append_assoc]

/-- Decomposition of the emitted HTML around the `og:url` tag. -/
lemma renderHtml_at_ogUrl (d : QuoteLink) :
    renderHtml d = preOgUrlTag d ++ ((ogUrlOpen ++ d.original_url.toList ++ attrClose) ++ sufOgUrlTag d) := by
  simp only [renderHtml, preOgUrlTag, preOgImageTag, preOgDescTag, preOgTitleTag,
    sufOgUrlTag, sufOgTypeTag, sufTwCardTag, sufTwTitleTag, sufTwDescTag, sufTwImageTag,
    sufRefreshTag, List.append_assoc]

/-- Decomposition of the emitted HTML around the `og:type` tag. -/
lemma renderHtml_at_ogType (d : QuoteLink) :
    renderHtml d = preOgTypeTag d ++ (ogTypeTag ++ sufOgTypeTag d) := by
  simp only [renderHtml, preOgTypeTag, preOgUrlTag, preOgImageTag, preOgDescTag, preOgTitleTag,
    sufOgTypeTag, sufTwCardTag, sufTwTitleTag, sufTwDescTag, sufTwImageTag,
    sufRefreshTag, List.append_assoc]

/-- Decomposition of the emitted HTML around the `twitter:card` tag. -/
lemma renderHtml_at_twCard (d : QuoteLink) :
    renderHtml d = preTwCardTag d ++ (twCardTag ++ sufTwCardTag d) := by
  simp only [renderHtml, preTwCardTag, preOgTypeTag, preOgUrlTag, preOgImageTag, preOgDescTag,
    preOgTitleTag, sufTwCardTag, sufTwTitleTag, sufTwDescTag, sufTwImageTag,
    sufRefreshTag, List.append_assoc]

/-- Decomposition of the emitted HTML around the `twitter:title` tag. -/
lemma renderHtml_at_twTitle (d : QuoteLink) :
    renderHtml d = preTwTitleTag d ++ ((twTitleOpen ++ d.title.toList ++ attrCloseQ) ++ sufTwTitleTag d) := by
  simp only [renderHtml, preTwTitleTag, preTwCardTag, preOgTypeTag, preOgUrlTag, preOgImageTag,
    preOgDescTag, preOgTitleTag, sufTwTitleTag, sufTwDescTag, sufTwImageTag,
    sufRefreshTag, List.append_assoc]

/-- Decomposition of the emitted HTML around the `twitter:description` tag. -/
lemma renderHtml_at_twDesc (d : QuoteLink) :
    renderHtml d = preTwDescTag d ++ ((twDescOpen ++ d.quote.toList ++ attrCloseQ) ++ sufTwDescTag d) := by
  simp only [renderHtml, preTwDescTag, preTwTitleTag, preTwCardTag, preOgTypeTag, preOgUrlTag,
    preOgImageTag, preOgDescTag, preOgTitleTag, sufTwDescTag, sufTwImageTag,
    sufRefreshTag, List.append_assoc]

/-- Decomposition of the emitted HTML around the `twitter:image` tag. -/
lemma renderHtml_at_twImage (d : QuoteLink) :
    renderHtml d = preTwImageTag d ++ ((twImageOpen ++ d.ogp_image_url.toList ++ attrCloseQ) ++ sufTwImageTag d) := by
  simp only [renderHtml, preTwImageTag, preTwDescTag, preTwTitleTag, preTwCardTag, preOgTypeTag,
    preOgUrlTag, preOgImageTag, preOgDescTag, preOgTitleTag, sufTwImageTag,
    sufRefreshTag, List.append_assoc]

/-- Decomposition of the emitted HTML around the meta-refresh tag. -/
lemma renderHtml_at_refresh (d : QuoteLink) :
    renderHtml d = preRefreshTag d ++ ((refreshOpen ++ d.original_url.toList ++ attrClose) ++ sufRefreshTag d) := by
  simp only [renderHtml, preRefreshTag, preTwImageTag, preTwDescTag, preTwTitleTag, preTwCardTag,
    preOgTypeTag, preOgUrlTag, preOgImageTag, preOgDescTag, preOgTitleTag,
    sufRefreshTag, List.append_assoc]

/-! Claim theorems. -/

/-- C3 counterexample: the extractor's fixed sentinel is not the pair
`title unavailable` / `author unavailable`; the code returns its Japanese
error strings instead. -/
theorem fetchMetadata_sentinel_strings_differ :
    (fetchMetadata (fun _ => none) none "https://zenn.dev/a").title ≠ "title unavailable" ∧
    (fetchMetadata (fun _ => none) none "https://zenn.dev/a").author ≠ "author unavailable" ∧
    (fetchMetadata (fun _ => none) none "https://zenn.dev/a").title = "タイトル取得エラー" ∧
    (fetchMetadata (fun _ => none) none "https://zenn.dev/a").author = "著者取得エラー" := by
  refine ⟨by decide, by decide, rfl, rfl⟩

/-- C3 (amended): on every failure — the fetch rejects, the response is
non-success, the embedded payload cannot be located, `JSON.parse` throws,
or the title or author is missing (falsy) — `fetchMetadata` returns the
fixed sentinel `タイトル取得エラー` / `著者取得エラー` with no avatar URL,
rather than propagating an error. -/
theorem fetchMetadata_failure_returns_sentinel (jsonParse : String → Option Json)
    (fetchOutcome : Option HttpResponse) (url : String)
    (h : fetchOutcome = none
      ∨ (∃ r, fetchOutcome = some r ∧ r.ok = false)
      ∨ (∃ r, fetchOutcome = some r ∧ findNextData r.body.toList = none)
      ∨ (∃ r cap, fetchOutcome = some r ∧ findNextData r.body.toList = some cap ∧
          jsonParse (String.mk cap) = none)
      ∨ (∃ r cap nd, fetchOutcome = some r ∧ r.ok = true ∧
          findNextData r.body.toList = some cap ∧ jsonParse (String.mk cap) = some nd ∧
          (truthy (optChain (optChain (optChain (Json.getField nd "props") "pageProps")
              "article") "title") = false ∨
           truthy (optChain (optChain (optChain (Json.getField nd "props") "pageProps")
              "user") "username") = false))) :
    fetchMetadata jsonParse fetchOutcome url = metadataSentinel := by
  rcases h with h | ⟨r, hr, hok⟩ | ⟨r, hr, hfind⟩ | ⟨r, cap, hr, hfind, hparse⟩ |
    ⟨r, cap, nd, hr, hok, hfind, hparse, hfalsy⟩
  · subst h; rfl
  · subst hr; simp [fetchMetadata, hok]
  · subst hr
    have hfind' : findNextData r.body.data = none := hfind
    by_cases hok : r.ok
    · simp [fetchMetadata, hok, hfind, hfind']
    · simp [fetchMetadata, hok]
  · subst hr
    have hfind' : findNextData r.body.data = some cap := hfind
    have hparse' : jsonParse { data := cap } = none := hparse
    by_cases hok : r.ok
    · simp [fetchMetadata, hok, hfind, hfind', hparse, hparse']
    · simp [fetchMetadata, hok]
  · subst hr
    have hfind' : findNextData r.body.data = some cap := hfind
    have hparse' : jsonParse { data := cap } = some nd := hparse
    rcases hfalsy with hf | hf <;>
      simp [fetchMetadata, hok, hfind, hfind', hparse, hparse', hf]

/-- C3 witness: a rejected fetch yields the sentinel. -/
theorem fetchMetadata_failure_returns_sentinel_witness :
    fetchMetadata (fun _ => none) none "https://zenn.dev/a" = metadataSentinel :=
  fetchMetadata_failure_returns_sentinel (fun _ => none) none "https://zenn.dev/a" (Or.inl rfl)

/-- C4: the `sanitize` in `fetchMetadata` replaces `<` by `<` and `>` by
`>`, i.e. it is the identity, so a title containing raw angle brackets is
returned with the raw `<` and `>` still present — the claimed
entity-escaping does not happen. -/
theorem sanitize_keeps_raw_angle_brackets :
    sanitizeStr "a<b>c" = "a<b>c" ∧
    '<' ∈ (sanitizeStr "a<b>c").toList ∧
    '>' ∈ (sanitizeStr "a<b>c").toList ∧
    (∀ s : String, sanitizeStr s = s) := by
  refine ⟨by decide, by decide, by decide, ?_⟩
  intro s
  cases s with
  | mk d =>
    show String.mk (sanitize d) = String.mk d
    rw [sanitize_eq_self]

/-- C5: `calculateFontSize` returns the maximum size 64 up to length 50,
the minimum size 32 from length 150, and the rounded linear interpolation
strictly in between; length 10 gives 64, length 200 gives 32, and length
100 gives a value strictly between 32 and 64. -/
theorem calculateFontSize_spec :
    (∀ L : ℕ, L ≤ 50 → calculateFontSize L = 64) ∧
    (∀ L : ℕ, 150 ≤ L → calculateFontSize L = 32) ∧
    (∀ L : ℕ, 50 < L → L < 150 →
      calculateFontSize L = round ((64 : ℚ) - (((L : ℚ) - 50) / 100) * 32)) ∧
    calculateFontSize 10 = 64 ∧
    calculateFontSize 200 = 32 ∧
    32 < calculateFontSize 100 ∧ calculateFontSize 100 < 64 := by
  have h100 : calculateFontSize 100 = 48 := by
    simp only [calculateFontSize]
    norm_num [round_eq]
  refine ⟨?_, ?_, ?_, by decide, by decide, by rw [h100]; decide, by rw [h100]; decide⟩
  · intro L h
    simp [calculateFontSize, h]
  · intro L h
    have h1 : ¬ (L ≤ 50) := by omega
    simp [calculateFontSize, h1, h]
  · intro L h1 h2
    have hn1 : ¬ (L ≤ 50) := by omega
    have hn2 : ¬ (150 ≤ L) := by omega
    simp only [calculateFontSize, if_neg hn1, if_neg hn2]
    congr 1
    push_cast
    ring

/-- C5 witness: at length 100 the interpolation formula applies. -/
theorem calculateFontSize_spec_witness :
    calculateFontSize 100 = round ((64 : ℚ) - ((((100 : ℕ) : ℚ) - 50) / 100) * 32) :=
  calculateFontSize_spec.2.2.1 100 (by norm_num) (by norm_num)

/-- C7 counterexample: a request with an empty quote and a valid url
passes the zod validation and the pipeline runs, answering 200 — the
empty quote is not rejected with 400. -/
theorem empty_quote_not_rejected :
    validateOgp (fun _ => true) { quote := "", url := "https://zenn.dev/a/articles/b" } = true ∧
    (postOgp allOkEnv (fun _ => true)
        { quote := "", url := "https://zenn.dev/a/articles/b" }).1.status = 200 :=
  ⟨rfl, rfl⟩

/-- C7 (amended): the schema imposes only a 200-character maximum on the
quote (no non-emptiness check), so for any url accepted by the URL check
that starts with `https://zenn.dev/`, the empty quote passes validation
and the pipeline runs. -/
theorem empty_quote_passes_validation (env : PostEnv) (isURL : String → Bool)
    (url : String) (h1 : isURL url = true)
    (h2 : strStartsWith url "https://zenn.dev/" = true) :
    validateOgp isURL { quote := "", url := url } = true ∧
    postOgp env isURL { quote := "", url := url } = postOgpValidated env "" url := by
  have hv : validateOgp isURL { quote := "", url := url } = true := by
    simp [validateOgp, h1, h2]
  exact ⟨hv, by simp [postOgp, hv]⟩

/-- C7 witness: the amended claim at a concrete url. -/
theorem empty_quote_passes_validation_witness :
    validateOgp (fun _ => true) { quote := "", url := "https://zenn.dev/a" } = true ∧
    postOgp allOkEnv (fun _ => true) { quote := "", url := "https://zenn.dev/a" } =
      postOgpValidated allOkEnv "" "https://zenn.dev/a" :=
  empty_quote_passes_validation allOkEnv (fun _ => true) "https://zenn.dev/a" rfl rfl

/-- C10: `GET /favicon.ico` is served by the `/:id` route, which is
registered first: with no stored record under the id `favicon.ico` the
response is 404 `Not Found` after a record-store query, not the 204 of
the dead `/favicon.ico` route. -/
theorem favicon_request_hits_param_route :
    routeGet (fun _ => Except.ok none) "/favicon.ico" =
      ({ status := 404, body := RespBody.text "Not Found" }, true) := rfl

/-- C1: in every validated POST execution, a record insert is only issued
after the blob put of the rendered bytes was issued and succeeded (the put
appears strictly earlier in the trace); and if the render, the blob put or
the record insert throws, the response is the generic 500 error body and
no record is persisted. -/
theorem post_ogp_store_before_record_atomicity (env : PostEnv) (quote url : String) :
    (∀ rec : QuoteLink,
        Event.recordInsert rec ∈ (postOgpValidated env quote url).2 →
        env.putResult = Except.ok () ∧
        ∃ (i j : ℕ) (key : String) (bytes : List ℕ) (ct : String), i < j ∧
          env.renderResult = Except.ok bytes ∧
          ((postOgpValidated env quote url).2)[i]? = some (Event.blobPut key bytes ct) ∧
          ((postOgpValidated env quote url).2)[j]? = some (Event.recordInsert rec)) ∧
    ((env.renderResult = Except.error () ∨ env.putResult = Except.error () ∨
        env.insertResult = Except.error ()) →
      (postOgpValidated env quote url).1 = ogpErrorResponse ∧
      ¬ recordPersisted env (postOgpValidated env quote url).2) := by
  obtain ⟨gid, jp, fo, rr, pr, ir, pu, now⟩ := env
  constructor
  · intro rec hmem
    cases rr with
    | error e => simp [postOgpValidated] at hmem
    | ok png =>
      cases pr with
      | error e => simp [postOgpValidated] at hmem
      | ok u1 =>
        cases u1
        cases ir with
        | error e =>
          simp [postOgpValidated] at hmem
          subst hmem
          exact ⟨rfl, 2, 3, "ogp/" ++ gid ++ ".png", png, "image/png",
            by norm_num, rfl, rfl, rfl⟩
        | ok u2 =>
          cases u2
          simp [postOgpValidated] at hmem
          subst hmem
          exact ⟨rfl, 2, 3, "ogp/" ++ gid ++ ".png", png, "image/png",
            by norm_num, rfl, rfl, rfl⟩
  · intro hfail
    cases rr with
    | error e =>
      cases e
      refine ⟨rfl, ?_⟩
      rintro ⟨⟨rec, hmem⟩, hins⟩
      simp [postOgpValidated] at hmem
    | ok png =>
      cases pr with
      | error e =>
        cases e
        refine ⟨rfl, ?_⟩
        rintro ⟨⟨rec, hmem⟩, hins⟩
        simp [postOgpValidated] at hmem
      | ok u1 =>
        cases u1
        cases ir with
        | error e =>
          cases e
          refine ⟨rfl, ?_⟩
          rintro ⟨⟨rec, hmem⟩, hins⟩
          exact Except.noConfusion hins
        | ok u2 =>
          cases u2
          rcases hfail with h | h | h <;> exact Except.noConfusion h

/-- C1 witness: with a failing blob put the response is the generic 500
body and nothing is persisted. -/
theorem post_ogp_store_before_record_atomicity_witness :
    (postOgpValidated putFailEnv "q" "https://zenn.dev/a").1 = ogpErrorResponse ∧
    ¬ recordPersisted putFailEnv (postOgpValidated putFailEnv "q" "https://zenn.dev/a").2 :=
  (post_ogp_store_before_record_atomicity putFailEnv "q" "https://zenn.dev/a").2
    (Or.inr (Or.inl rfl))

/-- C2: `GET /undefined` answers 404 without querying the record store; a
lookup miss answers 404; a hit answers 200 with the HTML document, which
contains the page title, the og:title / og:description / og:image /
og:url / og:type=article tags, the mirroring twitter:card / twitter:title
/ twitter:description / twitter:image tags and the zero-delay
meta-refresh to the stored original_url, each interpolated field spliced
in as the raw stored string. -/
theorem resolve_spec (db : String → Except Unit (Option QuoteLink)) (id : String)
    (data : QuoteLink) :
    getId db "undefined" = ({ status := 404, body := RespBody.text "Not Found" }, false) ∧
    (id ≠ "undefined" → db id = Except.ok none →
      getId db id = ({ status := 404, body := RespBody.text "Not Found" }, true)) ∧
    (id ≠ "undefined" → db id = Except.ok (some data) →
      getId db id = ({ status := 200, body := RespBody.html (renderHtml data) }, true)) ∧
    (∃ p q, renderHtml data = p ++ ((titleOpen ++ data.title.toList ++ titleClose) ++ q)) ∧
    (∃ p q, renderHtml data = p ++ ((ogTitleOpen ++ data.title.toList ++ attrClose) ++ q)) ∧
    (∃ p q, renderHtml data = p ++ ((ogDescOpen ++ data.quote.toList ++ attrClose) ++ q)) ∧
    (∃ p q, renderHtml data = p ++ ((ogImageOpen ++ data.ogp_image_url.toList ++ attrClose) ++ q)) ∧
    (∃ p q, renderHtml data = p ++ ((ogUrlOpen ++ data.original_url.toList ++ attrClose) ++ q)) ∧
    (∃ p q, renderHtml data = p ++ (ogTypeTag ++ q)) ∧
    (∃ p q, renderHtml data = p ++ (twCardTag ++ q)) ∧
    (∃ p q, renderHtml data = p ++ ((twTitleOpen ++ data.title.toList ++ attrCloseQ) ++ q)) ∧
    (∃ p q, renderHtml data = p ++ ((twDescOpen ++ data.quote.toList ++ attrCloseQ) ++ q)) ∧
    (∃ p q, renderHtml data = p ++ ((twImageOpen ++ data.ogp_image_url.toList ++ attrCloseQ) ++ q)) ∧
    (∃ p q, renderHtml data = p ++ ((refreshOpen ++ data.original_url.toList ++ attrClose) ++ q)) := by
  refine ⟨rfl, ?_, ?_,
    ⟨preTitleTag, sufTitleTag data, renderHtml_at_title data⟩,
    ⟨preOgTitleTag data, sufOgTitleTag data, renderHtml_at_ogTitle data⟩,
    ⟨preOgDescTag data, sufOgDescTag data, renderHtml_at_ogDesc data⟩,
    ⟨preOgImageTag data, sufOgImageTag data, renderHtml_at_ogImage data⟩,
    ⟨preOgUrlTag data, sufOgUrlTag data, renderHtml_at_ogUrl data⟩,
    ⟨preOgTypeTag data, sufOgTypeTag data, renderHtml_at_ogType data⟩,
    ⟨preTwCardTag data, sufTwCardTag data, renderHtml_at_twCard data⟩,
    ⟨preTwTitleTag data, sufTwTitleTag data, renderHtml_at_twTitle data⟩,
    ⟨preTwDescTag data, sufTwDescTag data, renderHtml_at_twDesc data⟩,
    ⟨preTwImageTag data, sufTwImageTag data, renderHtml_at_twImage data⟩,
    ⟨preRefreshTag data, sufRefreshTag data, renderHtml_at_refresh data⟩⟩
  · intro h1 h2
    have hb : (id == "undefined") = false := by simp [h1]
    simp [getId, hb, h2]
  · intro h1 h2
    have hb : (id == "undefined") = false := by simp [h1]
    simp [getId, hb, h2]

/-- C2 witness: the three branches at a concrete store. -/
theorem resolve_spec_witness :
    getId sampleDb "undefined" = ({ status := 404, body := RespBody.text "Not Found" }, false) ∧
    getId sampleDb "missing" = ({ status := 404, body := RespBody.text "Not Found" }, true) ∧
    getId sampleDb "someid1" =
      ({ status := 200, body := RespBody.html (renderHtml sampleRecord) }, true) :=
  ⟨(resolve_spec sampleDb "missing" sampleRecord).1,
   (resolve_spec sampleDb "missing" sampleRecord).2.1 (by decide) rfl,
   (resolve_spec sampleDb "someid1" sampleRecord).2.2.1 (by decide) rfl⟩

/-- C6: a quote longer than 200 characters, or a url rejected by the URL
check or not starting with `https://zenn.dev/`, is answered 400 with no
pipeline operation issued; a quote of at most 200 characters together
with an accepted url passes validation and the pipeline runs. -/
theorem post_ogp_validation_bounds (env : PostEnv) (isURL : String → Bool) (b : OgpRequest) :
    (200 < b.quote.length →
      postOgp env isURL b = ({ status := 400, body := RespBody.zodError }, [])) ∧
    ((isURL b.url = false ∨ strStartsWith b.url "https://zenn.dev/" = false) →
      postOgp env isURL b = ({ status := 400, body := RespBody.zodError }, [])) ∧
    (b.quote.length ≤ 200 → isURL b.url = true →
      strStartsWith b.url "https://zenn.dev/" = true →
      validateOgp isURL b = true ∧
      postOgp env isURL b = postOgpValidated env b.quote b.url ∧
      (postOgp env isURL b).2 ≠ []) := by
  refine ⟨?_, ?_, ?_⟩
  · intro h
    have hd : decide (b.quote.length ≤ 200) = false := by
      simp only [decide_eq_false_iff_not]
      omega
    have hv : validateOgp isURL b = false := by simp [validateOgp, hd]
    simp [postOgp, hv]
  · intro h
    have hv : validateOgp isURL b = false := by
      rcases h with h | h <;> simp [validateOgp, h]
    simp [postOgp, hv]
  · intro h1 h2 h3
    have hv : validateOgp isURL b = true := by simp [validateOgp, h1, h2, h3]
    have he : postOgp env isURL b = postOgpValidated env b.quote b.url := by
      simp [postOgp, hv]
    refine ⟨hv, he, ?_⟩
    rw [he]
    exact postOgpValidated_trace_ne_nil env b.quote b.url

set_option maxRecDepth 8192 in
/-- C6 witness: a 201-character quote is rejected with 400 and a valid
request reaches the pipeline. -/
theorem post_ogp_validation_bounds_witness :
    postOgp allOkEnv (fun _ => true)
        { quote := String.mk (List.replicate 201 'a'), url := "https://zenn.dev/a" } =
      ({ status := 400, body := RespBody.zodError }, []) ∧
    postOgp allOkEnv (fun _ => true) { quote := "Hello world", url := "https://zenn.dev/a" } =
      postOgpValidated allOkEnv "Hello world" "https://zenn.dev/a" :=
  ⟨(post_ogp_validation_bounds allOkEnv (fun _ => true)
      { quote := String.mk (List.replicate 201 'a'), url := "https://zenn.dev/a" }).1
      (by decide),
   ((post_ogp_validation_bounds allOkEnv (fun _ => true)
      { quote := "Hello world", url := "https://zenn.dev/a" }).2.2
      (by decide) rfl rfl).2.1⟩

/-- C8: every record whose insert the pipeline issues has
`original_url = url ++ "#:~:text=" ++ encodeURIComponent quote`, and the
redirect page's meta-refresh targets exactly this stored original_url;
the quote `Hello world` is encoded as `Hello%20world`. -/
theorem issued_original_url_has_text_fragment (env : PostEnv) (q u : String)
    (rec : QuoteLink)
    (hmem : Event.recordInsert rec ∈ (postOgpValidated env q u).2) :
    rec.original_url = u ++ "#:~:text=" ++ encodeURIComponent q ∧
    (∃ p pq, renderHtml rec = p ++ ((refreshOpen ++ rec.original_url.toList ++ attrClose) ++ pq)) ∧
    encodeURIComponent "Hello world" = "Hello%20world" := by
  have h := (recordInsert_mem_trace env q u rec hmem).1
  exact ⟨by rw [h], ⟨preRefreshTag rec, sufRefreshTag rec, renderHtml_at_refresh rec⟩, rfl⟩

/-- C8 witness: the persisted record of the `Hello world` issuance. -/
theorem issued_original_url_has_text_fragment_witness :
    helloRecord.original_url =
      "https://zenn.dev/a" ++ "#:~:text=" ++ encodeURIComponent "Hello world" ∧
    (∃ p pq, renderHtml helloRecord =
      p ++ ((refreshOpen ++ helloRecord.original_url.toList ++ attrClose) ++ pq)) ∧
    encodeURIComponent "Hello world" = "Hello%20world" := by
  refine issued_original_url_has_text_fragment allOkEnv "Hello world" "https://zenn.dev/a"
    helloRecord ?_
  have htr : (postOgpValidated allOkEnv "Hello world" "https://zenn.dev/a").2 =
      [Event.fetchMeta, Event.render "Hello world" "タイトル取得エラー" "著者取得エラー" none,
       Event.blobPut "ogp/abc1234.png" [] "image/png", Event.recordInsert helloRecord] := rfl
  rw [htr]
  exact List.Mem.tail _ (List.Mem.tail _ (List.Mem.tail _ (List.Mem.head _)))

/-- C9: the pipeline persists the user quote verbatim (no sanitization is
ever applied to it), and the redirect page splices the stored quote raw
into the double-quoted content attributes of the og:description and
twitter:description tags. -/
theorem quote_stored_and_rendered_raw (env : PostEnv) (q u : String) :
    (∀ rec : QuoteLink,
      Event.recordInsert rec ∈ (postOgpValidated env q u).2 → rec.quote = q) ∧
    (∀ data : QuoteLink,
      (∃ p pq, renderHtml data = p ++ ((ogDescOpen ++ data.quote.toList ++ attrClose) ++ pq)) ∧
      (∃ p pq, renderHtml data = p ++ ((twDescOpen ++ data.quote.toList ++ attrCloseQ) ++ pq))) := by
  constructor
  · intro rec hmem
    have h := (recordInsert_mem_trace env q u rec hmem).1
    rw [h]
  · intro data
    exact ⟨⟨preOgDescTag data, sufOgDescTag data, renderHtml_at_ogDesc data⟩,
      ⟨preTwDescTag data, sufTwDescTag data, renderHtml_at_twDesc data⟩⟩

/-- C9 witness: a quote holding a double quote and raw angle brackets is
persisted verbatim and spliced raw into the og:description attribute. -/
theorem quote_stored_and_rendered_raw_witness :
    rawRecord.quote = "a\"<>b" ∧
    (∃ p pq, renderHtml rawRecord =
      p ++ ((ogDescOpen ++ rawRecord.quote.toList ++ attrClose) ++ pq)) := by
  have h := quote_stored_and_rendered_raw allOkEnv "a\"<>b" "https://zenn.dev/a"
  refine ⟨h.1 rawRecord ?_, (h.2 rawRecord).1⟩
  have htr : (postOgpValidated allOkEnv "a\"<>b" "https://zenn.dev/a").2 =
      [Event.fetchMeta, Event.render "a\"<>b" "タイトル取得エラー" "著者取得エラー" none,
       Event.blobPut "ogp/abc1234.png" [] "image/png", Event.recordInsert rawRecord] := rfl
  rw [htr]
  exact List.Mem.tail _ (List.Mem.tail _ (List.Mem.tail _ (List.Mem.head _)))

end ZennQuotes
